import Mathlib

/-!
Verification of the user-state and access-control core of the Chessbot
Telegram bot (handlers/user_handlers.py, auth.py, admin_handlers.py,
config.py, chgggggggggggonfig.py).

The embedding models user identifiers as integers (Python `int`; profile
dictionaries are keyed by `str(user_id)`, which is injective on ints, so a
map keyed by the integer itself is equivalent), strings as Lean `String`
with ASCII semantics for `str.isalnum` / `str.lower` / `str.strip`, and
timestamps (`datetime.now().isoformat()`) as an abstract `Nat` passed in
explicitly. Persistence (`save_user_profiles`) is write-through of the
in-memory mapping and is modelled by the mapping itself.
-/

namespace Chessbot

/-- A user identifier (Python `int`). -/
abbrev UserId := Int

/-- One entry of `user_profiles.json`
(src/handlers/user_handlers.py, `get_user_profile`):
`lichess_username`, `balance`, `registration_complete`, `created_at`. -/
structure UserProfile where
  lichess_username : Option String
  balance : Int
  registration_complete : Bool
  created_at : Nat
  deriving DecidableEq, Repr

/-- The in-memory `self.user_profiles` mapping (persisted write-through). -/
def ProfileStore := UserId → Option UserProfile

/-- The default profile created by `get_user_profile` on first access:
`lichess_username = None`, `balance = 100`, `registration_complete = False`,
`created_at = datetime.now()`. -/
def defaultProfile (now : Nat) : UserProfile :=
  { lichess_username := none
    balance := 100
    registration_complete := false
    created_at := now }

/-- `UserHandlers.get_user_profile` (src/handlers/user_handlers.py lines
62-73): returns the existing record, or creates the default one, persists
it, and returns it.  Result is the returned profile together with the
post-call store. -/
def get_user_profile (s : ProfileStore) (user_id : UserId) (now : Nat) :
    UserProfile × ProfileStore :=
  match s user_id with
  | some p => (p, s)
  | none =>
      let p := defaultProfile now
      (p, fun id => if id = user_id then some p else s id)

/-- The keyword arguments accepted by `update_user_profile` at its call
sites: each field is `some v` when the corresponding key is present in
`kwargs` and is merged by `profile.update(kwargs)`. -/
structure ProfileUpdate where
  lichess_username : Option (Option String)
  balance : Option Int
  registration_complete : Option Bool
  deriving DecidableEq, Repr

/-- Python `profile.update(kwargs)`: keys present in `kwargs` overwrite the
profile's fields; absent keys are untouched.  `created_at` is never passed
at any call site. -/
def applyUpdate (p : UserProfile) (u : ProfileUpdate) : UserProfile :=
  { lichess_username := u.lichess_username.getD p.lichess_username
    balance := u.balance.getD p.balance
    registration_complete := u.registration_complete.getD p.registration_complete
    created_at := p.created_at }

/-- `UserHandlers.update_user_profile` (src/handlers/user_handlers.py lines
75-81): reads (or lazily creates) the profile, merges `kwargs` into it,
stores and persists it.  The Python function body has no `return`
statement, so its return value is `None`: the first component of the
result is that return value (`none`), the second is the post-call store. -/
def update_user_profile (s : ProfileStore) (user_id : UserId)
    (u : ProfileUpdate) (now : Nat) : Option UserProfile × ProfileStore :=
  let gp := get_user_profile s user_id now
  let profile := applyUpdate gp.1 u
  (none, fun id => if id = user_id then some profile else gp.2 id)

/-- Python `str.strip()` (ASCII whitespace fragment): remove leading and
trailing whitespace characters. -/
def pyStrip (s : String) : String :=
  String.mk
    (((s.data.dropWhile Char.isWhitespace).reverse.dropWhile
        Char.isWhitespace).reverse)

/-- Python `str.isalnum()` on one character (ASCII fragment): letters and
digits. -/
def pyIsAlnumChar (c : Char) : Bool := c.isAlphanum

/-- Python `str.isalnum()`: true iff the string is non-empty and every
character is alphanumeric (the empty string is NOT alnum). -/
def pyIsAlnum (s : String) : Bool :=
  !s.data.isEmpty && s.data.all pyIsAlnumChar

/-- Python `message_text.replace("_", "").replace("-", "")`: remove every
underscore and hyphen. -/
def stripUnderscoreDash (s : String) : String :=
  String.mk (s.data.filter (fun c => c != '_' && c != '-'))

/-- The rejection test of `handle_lichess_registration`
(src/handlers/user_handlers.py line 323):
`len(t) < 3 or len(t) > 20 or not t.replace("_","").replace("-","").isalnum()`. -/
def lichessInvalid (message_text : String) : Bool :=
  decide (message_text.length < 3) || decide (message_text.length > 20) ||
    !(pyIsAlnum (stripUnderscoreDash message_text))

/-- The three outcomes of `handle_lichess_registration`.  The Python
function returns `False` on the `NotApplicable` path and `True` on both the
`Rejected` path (error reply, line 328) and the `Accepted` path (success
reply, line 358); `regResultToBool` gives that return value. -/
inductive RegResult where
  | NotApplicable
  | Rejected
  | Accepted
  deriving DecidableEq, Repr

/-- The Python boolean actually returned by `handle_lichess_registration`. -/
def regResultToBool : RegResult → Bool
  | RegResult.NotApplicable => false
  | RegResult.Rejected => true
  | RegResult.Accepted => true

/-- `UserHandlers.handle_lichess_registration`
(src/handlers/user_handlers.py lines 310-358).
`message_text = update.message.text.strip()`; the profile is read (lazily
created); if `registration_complete` or `lichess_username is not None` the
function returns `False`; if the validation fails an error reply is sent
and it returns `True`; otherwise `update_user_profile` stores
`lichess_username = message_text.lower()`, `registration_complete = True`,
`balance = 100` and it returns `True`. -/
def handle_lichess_registration (s : ProfileStore) (user_id : UserId)
    (raw : String) (now : Nat) : RegResult × ProfileStore :=
  let message_text := (pyStrip raw)
  let gp := get_user_profile s user_id now
  let profile := gp.1
  if profile.registration_complete || profile.lichess_username.isSome then
    (RegResult.NotApplicable, gp.2)
  else if lichessInvalid message_text then
    (RegResult.Rejected, gp.2)
  else
    let u : ProfileUpdate :=
      { lichess_username := some (some message_text.toLower)
        balance := some 100
        registration_complete := some true }
    (RegResult.Accepted, (update_user_profile gp.2 user_id u now).2)

/-- The spec's profile invariant: `registration_complete == true` iff
`lichess_username != None`. -/
def profileInv (p : UserProfile) : Bool :=
  p.registration_complete == p.lichess_username.isSome

/-- Every profile present in the store satisfies `profileInv`. -/
def storeInv (s : ProfileStore) : Prop :=
  ∀ id p, s id = some p → profileInv p = true

/-- Modelled from the spec: the `Config` object built in src/config.py
carries only `admin_ids`; the banned-user set `banned_users` and the four
mutators (`ban_user`, `unban_user`, `add_admin`, `remove_admin`) are called
from src/auth.py and src/admin_handlers.py but their definitions are
missing from the source.  Spec §3 `AccessConfig`: `adminIds` and
`bannedIds` are the two identifier sets (modelled, like Python lists, as
lists with membership semantics). -/
structure AccessConfig where
  admin_ids : List UserId
  banned_users : List UserId
  deriving DecidableEq, Repr

/-- `AuthManager.is_admin` (src/auth.py lines 23-25):
`user_id in self.config.admin_ids`. -/
def is_admin (c : AccessConfig) (user_id : UserId) : Bool :=
  decide (user_id ∈ c.admin_ids)

/-- `AuthManager.is_banned` (src/auth.py lines 27-29):
`user_id in self.config.banned_users`. -/
def is_banned (c : AccessConfig) (user_id : UserId) : Bool :=
  decide (user_id ∈ c.banned_users)

/-- The three-way outcome of `check_admin_access`: `DeniedBanned` is the
early `return False` with the banned reply (src/auth.py line 46),
`DeniedNotAdmin` the `return False` with the not-admin reply (line 55),
`Allowed` the final `return True` (line 61). -/
inductive AccessResult where
  | Allowed
  | DeniedBanned
  | DeniedNotAdmin
  deriving DecidableEq, Repr

/-- `AuthManager.check_admin_access` (src/auth.py lines 31-61): the ban
check runs first, then the admin check. -/
def check_admin_access (c : AccessConfig) (user_id : UserId) : AccessResult :=
  if is_banned c user_id then AccessResult.DeniedBanned
  else if !is_admin c user_id then AccessResult.DeniedNotAdmin
  else AccessResult.Allowed

/-- Modelled from the spec: `Config.ban_user` (called via
`AuthManager.ban_user`, src/auth.py lines 90-92) is missing from the
source.  Spec §4.2: `banUser(userId) -> bool` returns false if already
banned OR if the target is an admin, leaving the sets unchanged; else
inserts into the banned set and returns true. -/
def AccessConfig.ban_user (c : AccessConfig) (user_id : UserId) :
    Bool × AccessConfig :=
  if user_id ∈ c.banned_users ∨ user_id ∈ c.admin_ids then (false, c)
  else (true, { admin_ids := c.admin_ids,
                banned_users := c.banned_users ++ [user_id] })

/-- `AuthManager.ban_user` (src/auth.py lines 90-92): delegates to
`self.config.ban_user(user_id)`. -/
def AuthManager.ban_user (c : AccessConfig) (user_id : UserId) :
    Bool × AccessConfig :=
  c.ban_user user_id

/-- Outcome of the `/ban` admin handler body after argument parsing:
the admin-target early return (src/admin_handlers.py line 312), the
success reply (line 317), or the already-banned reply (line 329). -/
inductive BanOutcome where
  | CannotBanAdmin
  | Banned
  | AlreadyBannedOrNotFound
  deriving DecidableEq, Repr

/-- `AdminHandlers.ban_user` (src/admin_handlers.py lines 293-335), from
the point where `target_user_id` has been parsed: if the target is in
`admin_ids` it replies "Cannot ban an administrator" and returns without
touching the config; otherwise it calls `config.ban_user` and reports its
boolean. -/
def ban_user_handler (c : AccessConfig) (target_user_id : UserId) :
    BanOutcome × AccessConfig :=
  if target_user_id ∈ c.admin_ids then (BanOutcome.CannotBanAdmin, c)
  else
    let r := AuthManager.ban_user c target_user_id
    if r.1 then (BanOutcome.Banned, r.2)
    else (BanOutcome.AlreadyBannedOrNotFound, r.2)

/-- The counters reported by `broadcast_message`: the number of
`send_message` attempts made, `success_count` and `failed_count`. -/
structure BroadcastTally where
  attempts : Nat
  success_count : Nat
  failed_count : Nat
  deriving DecidableEq, Repr

/-- The delivery loop of `AdminHandlers.broadcast_message`
(src/admin_handlers.py lines 260-275): for each user id in the activity
store, a banned id is skipped with no delivery attempt; otherwise
`send_message` is attempted — on success `success_count` increments, and a
raised exception is caught in the loop body (isolated, the loop continues)
and increments `failed_count`.  `deliver id = true` models a delivery that
succeeds, `false` one that raises. -/
def broadcast_message (user_ids : List UserId) (banned : List UserId)
    (deliver : UserId → Bool) : BroadcastTally :=
  match user_ids with
  | [] => { attempts := 0, success_count := 0, failed_count := 0 }
  | id :: rest =>
      let t := broadcast_message rest banned deliver
      if id ∈ banned then t
      else if deliver id then
        { attempts := t.attempts + 1,
          success_count := t.success_count + 1,
          failed_count := t.failed_count }
      else
        { attempts := t.attempts + 1,
          success_count := t.success_count,
          failed_count := t.failed_count + 1 }

/-- Python `str.isdigit()` (ASCII fragment): non-empty and all digits. -/
def pyIsDigit (s : String) : Bool :=
  !s.data.isEmpty && s.data.all Char.isDigit

/-- Python `s.split(",")`: split on every comma; the empty string yields
`[""]`, exactly like Python. -/
def pySplitComma (s : String) : List String :=
  (s.data.foldr
    (fun c acc =>
      match acc with
      | [] => [[c]]
      | cur :: rest =>
          if c = ',' then [] :: cur :: rest else (c :: cur) :: rest)
    [[]]).map String.mk

/-- `Config.__init__` of src/config.py (lines 3-6): reads `ADMIN_IDS` with
default `""` (`env = none` models an absent variable) and keeps
`int(i)` for the comma-separated pieces whose trimmed form `isdigit()`.
It never raises: an absent or empty variable yields the empty admin
list. -/
def config_admin_ids (admin_ids_env : Option String) : List UserId :=
  let admin_ids := admin_ids_env.getD ""
  ((pySplitComma admin_ids).filter (fun i => pyIsDigit (pyStrip i))).map
    (fun i => ((pyStrip i).toInt?).getD 0)

/-- `Config.__init__` of src/chgggggggggggonfig.py (lines 3-14): raises
`ValueError` if `TELEGRAM_BOT_TOKEN` is absent or empty, raises
`ValueError` if `ADMIN_IDS` is absent or empty, then parses
`int(x.strip())` for every non-blank comma-separated piece (raising if a
piece is not an integer literal).  `Except.error` models the raised
`ValueError`. -/
def chconfig_init (bot_token_env admin_ids_env : Option String) :
    Except String (List UserId) :=
  match bot_token_env with
  | none => Except.error "Environment variable TELEGRAM_BOT_TOKEN is required"
  | some tok =>
      if tok.data.isEmpty then
        Except.error "Environment variable TELEGRAM_BOT_TOKEN is required"
      else
        let admin_ids_str := admin_ids_env.getD ""
        if admin_ids_str.data.isEmpty then
          Except.error "Environment variable ADMIN_IDS is required"
        else
          let pieces := (pySplitComma admin_ids_str).filter
            (fun x => !(pyStrip x).data.isEmpty)
          pieces.foldlM
            (fun acc x =>
              match (pyStrip x).toInt? with
              | some n => Except.ok (acc ++ [n])
              | none => Except.error "invalid literal for int")
            []

/-! ## Basic lemmas about the record store -/

/-- If the profile already exists, `get_user_profile` returns it and leaves
the store untouched. -/
theorem get_user_profile_present {s : ProfileStore} {user_id : UserId}
    {p : UserProfile} (now : Nat) (h : s user_id = some p) :
    get_user_profile s user_id now = (p, s) := by
  unfold get_user_profile
  rw [h]

/-- If the profile is absent, `get_user_profile` creates the default one. -/
theorem get_user_profile_absent {s : ProfileStore} {user_id : UserId}
    (now : Nat) (h : s user_id = none) :
    get_user_profile s user_id now =
      (defaultProfile now,
       fun id => if id = user_id then some (defaultProfile now) else s id) := by
  unfold get_user_profile
  rw [h]

/-- Pointwise description of the store after `get_user_profile`. -/
theorem get_user_profile_store (s : ProfileStore) (user_id : UserId)
    (now : Nat) (id : UserId) :
    (get_user_profile s user_id now).2 id =
      if id = user_id then some (get_user_profile s user_id now).1
      else s id := by
  unfold get_user_profile
  cases h : s user_id with
  | some p =>
      by_cases hid : id = user_id
      · subst hid; simp [h]
      · simp [hid]
  | none =>
      by_cases hid : id = user_id <;> simp [hid]

/-- Pointwise description of the store after `update_user_profile`. -/
theorem update_user_profile_store (s : ProfileStore) (user_id : UserId)
    (u : ProfileUpdate) (now : Nat) (id : UserId) :
    (update_user_profile s user_id u now).2 id =
      if id = user_id then
        some (applyUpdate (get_user_profile s user_id now).1 u)
      else (get_user_profile s user_id now).2 id := by
  unfold update_user_profile
  by_cases hid : id = user_id <;> simp [hid]

/-! ## C6 and C7: getProfile / updateProfile -/

/-- C6: the first `get_user_profile` call for a fresh user id creates and
persists the default profile (`balance = 100`,
`registration_complete = false`, `lichess_username = none`,
`created_at = now`); a subsequent call at any later time returns the very
same record and store, creating no new `created_at`. -/
theorem getProfile_creates_default_then_idempotent (s : ProfileStore)
    (uid : UserId) (t1 t2 : Nat) (h : s uid = none) :
    (get_user_profile s uid t1).1 = defaultProfile t1 ∧
    (get_user_profile s uid t1).2 uid = some (defaultProfile t1) ∧
    get_user_profile (get_user_profile s uid t1).2 uid t2 =
      ((get_user_profile s uid t1).1, (get_user_profile s uid t1).2) := by
  rw [get_user_profile_absent t1 h]
  refine ⟨rfl, by simp, ?_⟩
  exact get_user_profile_present t2 (by simp)

theorem getProfile_creates_default_then_idempotent_witness :
    ((fun _ : UserId => (none : Option UserProfile)) 1 = none) ∧
    (get_user_profile (fun _ => none) 1 5).1 = defaultProfile 5 :=
  ⟨rfl,
   (getProfile_creates_default_then_idempotent (fun _ => none) 1 5 9 rfl).1⟩

/-- C7 counterexample: `update_user_profile` has no `return` statement, so
its Python return value is `None`, not the updated profile record. -/
theorem updateProfile_does_not_return_record :
    (update_user_profile (fun _ => none) 7
      { lichess_username := none, balance := some 50,
        registration_complete := none } 3).1 ≠
      some (applyUpdate (defaultProfile 3)
        { lichess_username := none, balance := some 50,
          registration_complete := none }) := by
  unfold update_user_profile
  simp

/-- C7 (amended): `update_user_profile` merges the given fields into the
existing (or newly created) profile and persists the merged record at the
user's key, but it returns `None` (no value) to its caller. -/
theorem updateProfile_merges_and_persists (s : ProfileStore) (uid : UserId)
    (u : ProfileUpdate) (now : Nat) :
    (update_user_profile s uid u now).1 = none ∧
    (update_user_profile s uid u now).2 uid =
      some (applyUpdate (get_user_profile s uid now).1 u) := by
  refine ⟨rfl, ?_⟩
  rw [update_user_profile_store]
  simp

/-! ## Registration lemmas -/

/-- If the stored profile is already registered (completed flag set or
username present), `handle_lichess_registration` returns
`NotApplicable` (= Python `False`) and leaves the store untouched. -/
theorem handle_notApplicable_of_registered {s : ProfileStore}
    {user_id : UserId} {p : UserProfile} (raw : String) (now : Nat)
    (hp : s user_id = some p)
    (hcond : (p.registration_complete || p.lichess_username.isSome) = true) :
    handle_lichess_registration s user_id raw now =
      (RegResult.NotApplicable, s) := by
  unfold handle_lichess_registration
  rw [get_user_profile_present now hp]
  simp [hcond]

/-- If the stored profile is unregistered and the trimmed input fails the
validation test, `handle_lichess_registration` returns `Rejected` and
leaves the store untouched. -/
theorem handle_rejected_of_invalid {s : ProfileStore} {user_id : UserId}
    {p : UserProfile} (raw : String) (now : Nat)
    (hp : s user_id = some p)
    (hreg : p.registration_complete = false)
    (hname : p.lichess_username = none)
    (hinv : lichessInvalid (pyStrip raw) = true) :
    handle_lichess_registration s user_id raw now = (RegResult.Rejected, s) := by
  unfold handle_lichess_registration
  rw [get_user_profile_present now hp]
  simp [hreg, hname, hinv]

/-- If the stored profile is unregistered and the trimmed input passes the
validation test, `handle_lichess_registration` returns `Accepted` and the
store holds the registered profile. -/
theorem handle_accepted_of_valid {s : ProfileStore} {user_id : UserId}
    {p : UserProfile} (raw : String) (now : Nat)
    (hp : s user_id = some p)
    (hreg : p.registration_complete = false)
    (hname : p.lichess_username = none)
    (hinv : lichessInvalid (pyStrip raw) = false) :
    handle_lichess_registration s user_id raw now =
      (RegResult.Accepted,
       fun id => if id = user_id then
         some { lichess_username := some (pyStrip raw).toLower, balance := 100,
                registration_complete := true, created_at := p.created_at }
       else s id) := by
  unfold handle_lichess_registration
  rw [get_user_profile_present now hp]
  simp only [hreg, hname, hinv, Option.isSome_none, Bool.or_self,
    Bool.false_eq_true, if_false, Bool.true_eq_false]
  unfold update_user_profile
  rw [get_user_profile_present now hp]
  simp [applyUpdate, hname]

/-! ## C1, C2, C10: the registration state machine -/

/-- C1: for an unregistered profile (`registration_complete = false`,
`lichess_username = None`) and a raw input whose trimmed form has length
3-20 and is alphanumeric after removing underscores and hyphens,
`handle_lichess_registration` accepts: it stores the lower-cased (trimmed)
input as `lichess_username`, sets `registration_complete = true`, resets
`balance` to 100 — and the transition happens exactly once: every later
call for that user id returns `NotApplicable` (Python `False`) and leaves
the store unchanged. -/
theorem tryRegister_accepts_valid_exactly_once (s : ProfileStore)
    (uid : UserId) (p : UserProfile) (raw : String) (now : Nat)
    (hp : s uid = some p)
    (hreg : p.registration_complete = false)
    (hname : p.lichess_username = none)
    (hlen3 : 3 ≤ (pyStrip raw).length) (hlen20 : (pyStrip raw).length ≤ 20)
    (halnum : pyIsAlnum (stripUnderscoreDash (pyStrip raw)) = true) :
    (handle_lichess_registration s uid raw now).1 = RegResult.Accepted ∧
    (handle_lichess_registration s uid raw now).2 uid =
      some { lichess_username := some (pyStrip raw).toLower, balance := 100,
             registration_complete := true, created_at := p.created_at } ∧
    ∀ raw2 now2,
      handle_lichess_registration
          (handle_lichess_registration s uid raw now).2 uid raw2 now2 =
        (RegResult.NotApplicable,
         (handle_lichess_registration s uid raw now).2) := by
  have hinv : lichessInvalid (pyStrip raw) = false := by
    unfold lichessInvalid
    rw [halnum]
    simp
    omega
  rw [handle_accepted_of_valid raw now hp hreg hname hinv]
  refine ⟨rfl, by simp, ?_⟩
  intro raw2 now2
  have hq : (fun id => if id = uid then
      some { lichess_username := some (pyStrip raw).toLower, balance := 100,
             registration_complete := true, created_at := p.created_at }
      else s id) uid =
      some { lichess_username := some (pyStrip raw).toLower, balance := 100,
             registration_complete := true, created_at := p.created_at } := by
    simp
  exact handle_notApplicable_of_registered raw2 now2 hq rfl

theorem tryRegister_accepts_valid_exactly_once_witness :
    (handle_lichess_registration
        (fun id => if id = (1 : UserId) then some (defaultProfile 0) else none)
        1 "Magnus_99" 7).1 = RegResult.Accepted :=
  (tryRegister_accepts_valid_exactly_once
      (fun id => if id = (1 : UserId) then some (defaultProfile 0) else none)
      1 (defaultProfile 0) "Magnus_99" 7
      (by simp) rfl rfl (by decide) (by decide) (by decide)).1

/-- C2: for an unregistered profile and a raw input violating the
validation rule (trimmed length below 3 or above 20, or the residue after
stripping underscores and hyphens not alphanumeric),
`handle_lichess_registration` returns `Rejected` and the store — hence the
profile — is completely unchanged, so the user stays unregistered. -/
theorem tryRegister_rejects_invalid (s : ProfileStore) (uid : UserId)
    (p : UserProfile) (raw : String) (now : Nat)
    (hp : s uid = some p)
    (hreg : p.registration_complete = false)
    (hname : p.lichess_username = none)
    (hbad : (pyStrip raw).length < 3 ∨ 20 < (pyStrip raw).length ∨
            pyIsAlnum (stripUnderscoreDash (pyStrip raw)) = false) :
    handle_lichess_registration s uid raw now = (RegResult.Rejected, s) := by
  have hinv : lichessInvalid (pyStrip raw) = true := by
    unfold lichessInvalid
    rcases hbad with h | h | h
    · simp [h]
    · simp [h]
    · simp [h]
  exact handle_rejected_of_invalid raw now hp hreg hname hinv

theorem tryRegister_rejects_invalid_witness :
    handle_lichess_registration
        (fun id => if id = (1 : UserId) then some (defaultProfile 0) else none)
        1 "ab" 7 =
      (RegResult.Rejected,
       fun id => if id = (1 : UserId) then some (defaultProfile 0) else none) :=
  tryRegister_rejects_invalid
    (fun id => if id = (1 : UserId) then some (defaultProfile 0) else none)
    1 (defaultProfile 0) "ab" 7 (by simp) rfl rfl (Or.inl (by decide))

/-- C10: a trimmed input of length 3-20 made only of underscores and
hyphens is rejected: stripping those characters leaves the empty string,
and Python's `"".isalnum()` is `False`, so `handle_lichess_registration`
returns `Rejected` even though every character of the input belongs to the
allowed alphabet. -/
theorem tryRegister_rejects_filler_only (s : ProfileStore) (uid : UserId)
    (p : UserProfile) (raw : String) (now : Nat)
    (hp : s uid = some p)
    (hreg : p.registration_complete = false)
    (hname : p.lichess_username = none)
    (hchars : ∀ c ∈ (pyStrip raw).data, c = '_' ∨ c = '-')
    (hlen3 : 3 ≤ (pyStrip raw).length) (hlen20 : (pyStrip raw).length ≤ 20) :
    stripUnderscoreDash (pyStrip raw) = "" ∧
    pyIsAlnum "" = false ∧
    handle_lichess_registration s uid raw now = (RegResult.Rejected, s) := by
  have hempty : stripUnderscoreDash (pyStrip raw) = "" := by
    unfold stripUnderscoreDash
    have hnil : (pyStrip raw).data.filter (fun c => c != '_' && c != '-') = [] := by
      rw [List.filter_eq_nil_iff]
      intro c hc
      rcases hchars c hc with h | h <;> simp [h]
    rw [hnil]
  refine ⟨hempty, rfl, ?_⟩
  have hinv : lichessInvalid (pyStrip raw) = true := by
    have h0 : pyIsAlnum "" = false := by decide
    unfold lichessInvalid
    rw [hempty, h0]
    simp
  exact handle_rejected_of_invalid raw now hp hreg hname hinv

theorem tryRegister_rejects_filler_only_witness :
    handle_lichess_registration
        (fun id => if id = (1 : UserId) then some (defaultProfile 0) else none)
        1 "___" 7 =
      (RegResult.Rejected,
       fun id => if id = (1 : UserId) then some (defaultProfile 0) else none) :=
  (tryRegister_rejects_filler_only
      (fun id => if id = (1 : UserId) then some (defaultProfile 0) else none)
      1 (defaultProfile 0) "___" 7 (by simp) rfl rfl
      (by decide) (by decide) (by decide)).2.2

/-! ## C3: the registration invariant -/

/-- C3: `registration_complete = true` iff `lichess_username ≠ None` holds
for every profile the public operations produce: the invariant is satisfied
by freshly created default profiles and preserved by `get_user_profile`,
by `handle_lichess_registration`, and by the registration update the
latter performs through `update_user_profile`. -/
theorem public_ops_preserve_profileInv (s : ProfileStore) (uid : UserId)
    (raw : String) (now : Nat) (h : storeInv s) :
    profileInv (defaultProfile now) = true ∧
    storeInv (get_user_profile s uid now).2 ∧
    storeInv (handle_lichess_registration s uid raw now).2 ∧
    storeInv (update_user_profile s uid
      { lichess_username := some (some (pyStrip raw).toLower),
        balance := some 100, registration_complete := some true } now).2 := by
  have hget : storeInv (get_user_profile s uid now).2 := by
    intro id q hq
    rw [get_user_profile_store] at hq
    by_cases hid : id = uid
    · rw [if_pos hid] at hq
      cases hs : s uid with
      | some p =>
          rw [get_user_profile_present now hs] at hq
          injection hq with hq
          exact hq ▸ h uid p hs
      | none =>
          rw [get_user_profile_absent now hs] at hq
          injection hq with hq
          rw [← hq]
          rfl
    · rw [if_neg hid] at hq
      exact h id q hq
  have hupd : ∀ (t : Nat),
      storeInv (update_user_profile s uid
        { lichess_username := some (some (pyStrip raw).toLower),
          balance := some 100, registration_complete := some true } t).2 := by
    intro t id q hq
    rw [update_user_profile_store] at hq
    by_cases hid : id = uid
    · rw [if_pos hid] at hq
      injection hq with hq
      rw [← hq]
      rfl
    · rw [if_neg hid] at hq
      have hget2 : storeInv (get_user_profile s uid t).2 := by
        intro id2 q2 hq2
        rw [get_user_profile_store] at hq2
        by_cases hid2 : id2 = uid
        · rw [if_pos hid2] at hq2
          cases hs : s uid with
          | some p =>
              rw [get_user_profile_present t hs] at hq2
              injection hq2 with hq2
              exact hq2 ▸ h uid p hs
          | none =>
              rw [get_user_profile_absent t hs] at hq2
              injection hq2 with hq2
              rw [← hq2]
              rfl
        · rw [if_neg hid2] at hq2
          exact h id2 q2 hq2
      exact hget2 id q hq
  refine ⟨rfl, hget, ?_, hupd now⟩
  unfold handle_lichess_registration
  cases hs : s uid with
  | some p =>
      rw [get_user_profile_present now hs]
      by_cases hcond : (p.registration_complete || p.lichess_username.isSome) = true
      · simp only [hcond, if_true]
        exact h
      · rw [Bool.not_eq_true] at hcond
        simp only [hcond, Bool.false_eq_true, if_false]
        by_cases hval : lichessInvalid (pyStrip raw) = true
        · simp only [hval, if_true]
          exact h
        · rw [Bool.not_eq_true] at hval
          simp only [hval, Bool.false_eq_true, if_false]
          exact hupd now
  | none =>
      rw [get_user_profile_absent now hs]
      simp only [defaultProfile, Option.isSome_none, Bool.or_false,
        Bool.false_eq_true, if_false]
      have hd : lichessInvalid (pyStrip raw) = true ∨
          lichessInvalid (pyStrip raw) = false := by
        cases lichessInvalid (pyStrip raw) with
        | true => exact Or.inl rfl
        | false => exact Or.inr rfl
      set s1 : ProfileStore :=
        fun id => if id = uid then some (defaultProfile now) else s id with hs1
      have hinv1 : storeInv s1 := by
        intro id q hq
        have hq2 : (if id = uid then some (defaultProfile now) else s id) =
            some q := hq
        by_cases hid : id = uid
        · rw [if_pos hid] at hq2
          injection hq2 with hq2
          rw [← hq2]
          rfl
        · rw [if_neg hid] at hq2
          exact h id q hq2
      rcases hd with hval | hval
      · simp only [hval, if_true]
        exact hinv1
      · simp only [hval, Bool.false_eq_true, if_false]
        intro id q hq
        rw [update_user_profile_store] at hq
        by_cases hid : id = uid
        · rw [if_pos hid] at hq
          injection hq with hq
          rw [← hq]
          rfl
        · rw [if_neg hid] at hq
          rw [get_user_profile_store] at hq
          by_cases hid2 : id = uid
          · exact absurd hid2 hid
          · rw [if_neg hid2] at hq
            exact hinv1 id q hq

theorem public_ops_preserve_profileInv_witness :
    storeInv (handle_lichess_registration
      (fun _ => none) 1 "magnus_99" 0).2 :=
  (public_ops_preserve_profileInv (fun _ => none) 1 "magnus_99" 0
      (fun _ _ hp => Option.noConfusion hp)).2.2.1

/-! ## C4 and C5: access control -/

/-- C4: `check_admin_access` is a total function into the three outcomes
(so every call yields exactly one of `Allowed` / `DeniedBanned` /
`DeniedNotAdmin` and none can throw); the ban check runs before the admin
check, so a banned id — admin or not — is denied as banned, and `Allowed`
holds exactly for ids that are admins and not banned. -/
theorem check_admin_access_ban_precedence (c : AccessConfig) (uid : UserId) :
    (check_admin_access c uid = AccessResult.Allowed ∨
     check_admin_access c uid = AccessResult.DeniedBanned ∨
     check_admin_access c uid = AccessResult.DeniedNotAdmin) ∧
    (uid ∈ c.banned_users →
      check_admin_access c uid = AccessResult.DeniedBanned) ∧
    (uid ∈ c.banned_users → uid ∈ c.admin_ids →
      check_admin_access c uid ≠ AccessResult.Allowed) ∧
    (check_admin_access c uid = AccessResult.Allowed ↔
      uid ∉ c.banned_users ∧ uid ∈ c.admin_ids) := by
  unfold check_admin_access is_banned is_admin
  by_cases hb : uid ∈ c.banned_users <;> by_cases ha : uid ∈ c.admin_ids <;>
    simp [hb, ha]

theorem check_admin_access_ban_precedence_witness :
    check_admin_access { admin_ids := [7], banned_users := [7] } 7 =
      AccessResult.DeniedBanned :=
  (check_admin_access_ban_precedence
      { admin_ids := [7], banned_users := [7] } 7).2.1 (by decide)

/-- C5: banning a target that is an admin is always refused: the
spec-modelled `Config.ban_user` (reached through `AuthManager.ban_user`)
returns `false` and leaves the config — both the admin list and the banned
list — unchanged, and the `/ban` handler short-circuits to
"Cannot ban an administrator" without touching the config at all. -/
theorem ban_user_admin_always_rejected (c : AccessConfig) (uid : UserId)
    (h : uid ∈ c.admin_ids) :
    AuthManager.ban_user c uid = (false, c) ∧
    ban_user_handler c uid = (BanOutcome.CannotBanAdmin, c) := by
  constructor
  · unfold AuthManager.ban_user AccessConfig.ban_user
    rw [if_pos (Or.inr h)]
  · unfold ban_user_handler
    rw [if_pos h]

theorem ban_user_admin_always_rejected_witness :
    AuthManager.ban_user { admin_ids := [7], banned_users := [] } 7 =
      (false, { admin_ids := [7], banned_users := [] }) :=
  (ban_user_admin_always_rejected
      { admin_ids := [7], banned_users := [] } 7 (by decide)).1

/-! ## C9: broadcast -/

/-- C9: broadcasting over the activity set `{1, 2, 3}` with id `2` banned
makes exactly two delivery attempts (the banned id is filtered out before
any attempt), and — whatever each delivery does, including raising, which
is caught per recipient and never aborts the batch — the reported
`success_count` and `failed_count` sum to 2. -/
theorem broadcast_skips_banned_and_counts (deliver : UserId → Bool) :
    (broadcast_message [1, 2, 3] [2] deliver).attempts = 2 ∧
    (broadcast_message [1, 2, 3] [2] deliver).success_count +
      (broadcast_message [1, 2, 3] [2] deliver).failed_count = 2 := by
  cases h1 : deliver 1 <;> cases h3 : deliver 3 <;>
    simp [broadcast_message, h1, h3]

theorem broadcast_skips_banned_and_counts_witness :
    (broadcast_message [1, 2, 3] [2] (fun id => decide (id = 1))).attempts = 2 ∧
    (broadcast_message [1, 2, 3] [2]
        (fun id => decide (id = 1))).success_count +
      (broadcast_message [1, 2, 3] [2]
        (fun id => decide (id = 1))).failed_count = 2 :=
  broadcast_skips_banned_and_counts (fun id => decide (id = 1))

/-! ## C8: startup configuration -/

/-- C8: with `ADMIN_IDS` absent from the environment, the `Config` that
src/bot.py actually imports (src/config.py) does NOT raise: it falls back
to the default `""` and yields the empty admin list, so the process starts
with no admins.  The alternative `Config` of src/chgggggggggggonfig.py
does raise `ValueError`, matching the spec's fatal-startup requirement. -/
theorem config_missing_admin_ids_behaviour :
    config_admin_ids none = [] ∧
    chconfig_init (some "token123") none =
      Except.error "Environment variable ADMIN_IDS is required" := by
  constructor
  · rfl
  · rfl

end Chessbot







